import Mathlib

/-!
Shallow embedding of `koa-fp-ts-router` (src/src/index.ts) together with the
parts of its collaborators that the router's behaviour depends on:

* `fp-ts-routing`: `Route.parse`, `Parser` (`zero`, `alt`, `map`), `parse`,
  `Match` (a parser paired with a formatter) and `format`, plus the concrete
  matchers `lit`, `str` and `end` used by the repository's tests.  A route is
  modelled as its list of path segments (`Route.parse` splits on `/` and drops
  empty segments); query strings are not exercised by the router and are
  omitted.
* Koa: a per-request context (`Ctx`) with method, path, the `params` field the
  router attaches, status, body and headers; middleware as a function taking
  the context and a `next` continuation; `koa-compose` as the standard
  fold-into-a-chain.  `null`/`undefined` values become `Option`.

Handlers in the TypeScript source are stored type-erased (`params: any`), so
the embedding fixes one parameter type `V` per router; the repository's tests
use string-keyed string parameters, modelled as `List (String × String)`.
-/

namespace KoaFptsRouter

/-- A parsed route: the list of non-empty path segments. -/
abbrev RouteParts := List String

/-- Split a string on `/` characters (JavaScript `path.split('/')`). -/
def splitSlash (s : String) : List String :=
  (s.toList.foldr
    (fun c acc =>
      match acc with
      | [] => if c = '/' then [[], []] else [[c]]
      | g :: rest => if c = '/' then [] :: g :: rest else (c :: g) :: rest)
    [[]]).map (fun l => String.mk l)

/-- Fp-ts-routing `Route.parse`: split the pathname on `/` and keep the
non-empty segments (`path.split('/').filter(Boolean)`). -/
def routeParse (path : String) : RouteParts :=
  (splitSlash path).filter (fun seg => seg ≠ "")

/-- fp-ts-routing `Parser<A>`: consumes a prefix of the route, returning the
parsed value and the remaining segments, or nothing. -/
structure Parser (α : Type) where
  run : RouteParts → Option (α × RouteParts)

/-- fp-ts-routing `zero()`: the parser that fails on every route. -/
def Parser.zero {α : Type} : Parser α := ⟨fun _ => none⟩

/-- fp-ts-routing `Parser.alt`: try `p` first, and only if it fails try `q`. -/
def Parser.alt {α : Type} (p q : Parser α) : Parser α :=
  ⟨fun r => (p.run r).orElse (fun _ => q.run r)⟩

/-- fp-ts-routing `Parser.map`. -/
def Parser.map {α β : Type} (f : α → β) (p : Parser α) : Parser β :=
  ⟨fun r => (p.run r).map (fun x => (f x.1, x.2))⟩

/-- fp-ts-routing `parse(parser, route, dflt)`: the parsed value of the first
successful branch, or the default. -/
def fpParse {α : Type} (p : Parser α) (r : RouteParts) (dflt : α) : α :=
  match p.run r with
  | some x => x.1
  | none => dflt

/-- fp-ts-routing `Match<A>`: a parser together with a formatter.  The
formatter is modelled by the segments it appends (`Formatter.run` starting
from the empty route). -/
structure Match (α : Type) where
  parser : Parser α
  formatter : α → List String

/-- Fp-ts-routing `Route.toString` for a route with the given segments and no query:
`'/' + parts.join('/')`. -/
def partsToString (segs : List String) : String :=
  "/" ++ String.intercalate "/" segs

/-- fp-ts-routing `format(formatter, a)`. -/
def fpFormat {α : Type} (formatter : α → List String) (a : α) : String :=
  partsToString (formatter a)

/-- The type-erased parameter shape used by the repository's tests: a record
of string captures, as a key/value list. -/
abbrev Params := List (String × String)

/-- fp-ts-routing `lit(s)`: matches a literal first segment, captures
nothing, formats to that segment. -/
def lit (s : String) : Match Params :=
  { parser := ⟨fun r =>
      match r with
      | [] => none
      | seg :: rest => if seg = s then some ([], rest) else none⟩
    formatter := fun _ => [s] }

/-- fp-ts-routing `str(k)`: matches any first segment, capturing it under
key `k`; formats to the value stored under `k` (capture keys in a `Match`
are assumed present, as in the typed TypeScript API). -/
def strCapture (k : String) : Match Params :=
  { parser := ⟨fun r =>
      match r with
      | [] => none
      | seg :: rest => some ([(k, seg)], rest)⟩
    formatter := fun a => [(a.lookup k).getD ""] }

/-- fp-ts-routing `end`: matches exactly the empty remainder. -/
def endMatch : Match Params :=
  { parser := ⟨fun r =>
      match r with
      | [] => some ([], [])
      | _ :: _ => none⟩
    formatter := fun _ => [] }

/-- fp-ts-routing `Match.then`: run both parsers in sequence merging the
captured records (`Object.assign`: later keys override, modelled by putting
the second record first for `List.lookup`), and concatenate the formatted
segments. -/
def Match.andThen (m1 m2 : Match Params) : Match Params :=
  { parser := ⟨fun r =>
      match m1.parser.run r with
      | none => none
      | some (a, r1) =>
        match m2.parser.run r1 with
        | none => none
        | some (b, r2) => some (b ++ a, r2)⟩
    formatter := fun a => m1.formatter a ++ m2.formatter a }

/-! ## Koa model -/

/-- The Koa request context, restricted to the fields the router reads or
writes.  `params` is the field the router attaches (`undefined`, i.e. `none`,
until a matched route's wrapper assigns it). -/
structure Ctx (V : Type) where
  method : String
  path : String
  params : Option V
  status : Option Nat
  body : Option String
  headers : List (String × String)
deriving DecidableEq

/-- Koa `ctx.set(k, v)`: set a response header, replacing any previous
value for that header name. -/
def Ctx.set {V : Type} (c : Ctx V) (k v : String) : Ctx V :=
  { c with headers := (k, v) :: c.headers.filter (fun p => p.1 ≠ k) }

/-- Look up a response header. -/
def Ctx.getHeader {V : Type} (c : Ctx V) (k : String) : Option String :=
  (c.headers.lookup k)

/-- Koa `ctx.redirect(url)`: set the `Location` header and a 302 status
(the router subsequently overwrites the status with its own code). -/
def Ctx.redirect {V : Type} (c : Ctx V) (url : String) : Ctx V :=
  { c.set "Location" url with status := some 302 }

/-- Koa middleware, in a synchronous denotational model: a function of the
context and the `next` continuation, returning the final context.  A
middleware that does not call `next` short-circuits the chain. -/
abbrev Middleware (V : Type) := Ctx V → (Ctx V → Ctx V) → Ctx V

/-- The `koa-compose` primitive: chain the middlewares so that each one's `next` runs the
rest of the list, the final `next` being the downstream continuation. -/
def koaCompose {V : Type} : List (Middleware V) → Middleware V
  | [], ctx, next => next ctx
  | m :: rest, ctx, next => m ctx (fun c => koaCompose rest c next)

/-! ## The router -/

/-- The seven HTTP method names the router recognizes. -/
inductive Method
  | DELETE | GET | HEAD | OPTIONS | PATCH | POST | PUT
deriving DecidableEq

/-- The six registrable methods, `Exclude<Method, 'OPTIONS'>`: the keys of
the router's parser table. -/
inductive RMethod
  | DELETE | GET | HEAD | PATCH | POST | PUT
deriving DecidableEq

def RMethod.toMethod : RMethod → Method
  | .DELETE => .DELETE
  | .GET => .GET
  | .HEAD => .HEAD
  | .PATCH => .PATCH
  | .POST => .POST
  | .PUT => .PUT

/-- The table key for a recognized method; `none` exactly for `OPTIONS`. -/
def Method.toSlotKey : Method → Option RMethod
  | .DELETE => some .DELETE
  | .GET => some .GET
  | .HEAD => some .HEAD
  | .OPTIONS => none
  | .PATCH => some .PATCH
  | .POST => some .POST
  | .PUT => some .PUT

/-- The method's name, as serialized into the `Allow` header. -/
def RMethod.name : RMethod → String
  | .DELETE => "DELETE"
  | .GET => "GET"
  | .HEAD => "HEAD"
  | .PATCH => "PATCH"
  | .POST => "POST"
  | .PUT => "PUT"

/-- Source `Router.parseMethod`: recognize the method token, `null` otherwise. -/
def parseMethod (str : String) : Option Method :=
  match str with
  | "DELETE" => some .DELETE
  | "GET" => some .GET
  | "HEAD" => some .HEAD
  | "OPTIONS" => some .OPTIONS
  | "PATCH" => some .PATCH
  | "PUT" => some .PUT
  | "POST" => some .POST
  | _ => none

/-- The router's `parsers` record: one parser slot per registrable method,
each holding middlewares as parse results. -/
structure PTable (V : Type) where
  DELETE : Parser (Middleware V)
  GET : Parser (Middleware V)
  HEAD : Parser (Middleware V)
  PATCH : Parser (Middleware V)
  POST : Parser (Middleware V)
  PUT : Parser (Middleware V)

/-- Slot lookup, `this.parsers[m]`. -/
def PTable.slot {V : Type} (t : PTable V) : RMethod → Parser (Middleware V)
  | .DELETE => t.DELETE
  | .GET => t.GET
  | .HEAD => t.HEAD
  | .PATCH => t.PATCH
  | .POST => t.POST
  | .PUT => t.PUT

/-- Slot assignment, `this.parsers[m] = p`. -/
def PTable.setSlot {V : Type} (t : PTable V) : RMethod → Parser (Middleware V) → PTable V
  | .DELETE, p => { t with DELETE := p }
  | .GET, p => { t with GET := p }
  | .HEAD, p => { t with HEAD := p }
  | .PATCH, p => { t with PATCH := p }
  | .POST, p => { t with POST := p }
  | .PUT, p => { t with PUT := p }

/-- The `Router` state: the global middleware list and the parser table. -/
structure Router (V : Type) where
  middlewares : List (Middleware V)
  parsers : PTable V

/-- The `Router` constructor: no configuration parameters; every slot starts
as `zero()` and the middleware list empty. -/
def Router.new {V : Type} : Router V :=
  { middlewares := []
    parsers :=
      { DELETE := Parser.zero
        GET := Parser.zero
        HEAD := Parser.zero
        PATCH := Parser.zero
        POST := Parser.zero
        PUT := Parser.zero } }

/-- The wrapper `register` puts around a handler: assign the matched
parameters to `ctx.params`, then run the handler. -/
def injectParams {V : Type} (middleware : Middleware V) (params : V) : Middleware V :=
  fun ctx next => middleware { ctx with params := some params } next

/-- Source `Router.register`: wrap the handler so that the matched parameters are
written into `ctx.params` before it runs, and alternate the wrapped parser
onto the slot's current value (current value first). -/
def Router.register {V : Type} (r : Router V) (m : RMethod) (mtch : Match V)
    (middleware : Middleware V) : Router V :=
  let parser := mtch.parser.map (injectParams middleware)
  { r with parsers := r.parsers.setSlot m ((r.parsers.slot m).alt parser) }

/-- Source `Router.delete`. -/
def Router.delete {V : Type} (r : Router V) (mtch : Match V)
    (middleware : Middleware V) : Router V :=
  r.register .DELETE mtch middleware

/-- Source `Router.get`: registers under `GET` and then also under `HEAD`. -/
def Router.get {V : Type} (r : Router V) (mtch : Match V)
    (middleware : Middleware V) : Router V :=
  (r.register .GET mtch middleware).register .HEAD mtch middleware

/-- Source `Router.patch`. -/
def Router.patch {V : Type} (r : Router V) (mtch : Match V)
    (middleware : Middleware V) : Router V :=
  r.register .PATCH mtch middleware

/-- Source `Router.post`. -/
def Router.post {V : Type} (r : Router V) (mtch : Match V)
    (middleware : Middleware V) : Router V :=
  r.register .POST mtch middleware

/-- Source `Router.put`. -/
def Router.put {V : Type} (r : Router V) (mtch : Match V)
    (middleware : Middleware V) : Router V :=
  r.register .PUT mtch middleware

/-- Source `Router.use`: append to the global middleware list. -/
def Router.use {V : Type} (r : Router V) (middleware : Middleware V) : Router V :=
  { r with middlewares := r.middlewares ++ [middleware] }

/-- Source `Router.all` (private): register under the five verbs
DELETE, GET, PATCH, POST, PUT — and not HEAD. -/
def Router.all {V : Type} (r : Router V) (mtch : Match V)
    (middleware : Middleware V) : Router V :=
  [RMethod.DELETE, .GET, .PATCH, .POST, .PUT].foldl
    (fun acc m => acc.register m mtch middleware) r

/-- The handler `Router.redirect` registers: map the matched source
parameters through `f`, format the destination match, issue `ctx.redirect`
to that path and then overwrite the status with `code`.  It reads
`ctx.params`, always set by `register`'s wrapper before the handler runs;
the `none` branch is unreachable through `routes`. -/
def redirectHandler {V : Type} (dest : Match V) (f : V → V) (code : Nat) :
    Middleware V :=
  fun ctx _next =>
    match ctx.params with
    | some a => { Ctx.redirect ctx (fpFormat dest.formatter (f a)) with status := some code }
    | none => ctx

/-- Source `Router.redirect`: registers `redirectHandler` under the five verbs. -/
def Router.redirect {V : Type} (r : Router V) (src : Match V) (dest : Match V)
    (f : V → V) (code : Nat) : Router V :=
  r.all src (redirectHandler dest f code)

/-- Source `Router.redirect` with its default status argument, `code = 302`. -/
def Router.redirectD {V : Type} (r : Router V) (src : Match V) (dest : Match V)
    (f : V → V) : Router V :=
  r.redirect src dest f 302

/-- Source `Router.routes()`: normalize the method (unknown and `OPTIONS` pass
through), match the slot's parser against the parsed path (no match passes
through), and otherwise run the composed chain of all global middlewares
followed by the matched parameter-injecting handler, with the original
downstream `next`. -/
def Router.routes {V : Type} (r : Router V) : Middleware V :=
  fun ctx next =>
    match parseMethod ctx.method with
    | none => next ctx
    | some mth =>
      match mth.toSlotKey with
      | none => next ctx
      | some m =>
        match fpParse ((r.parsers.slot m).map some) (routeParse ctx.path) none with
        | none => next ctx
        | some middleware => koaCompose (r.middlewares ++ [middleware]) ctx next

/-- The fixed canonical method order used by `allowedMethods`. -/
def canonicalMethods : List RMethod :=
  [.DELETE, .GET, .HEAD, .PATCH, .POST, .PUT]

/-- Source `Router.allowedMethods()`: 501 for unrecognized tokens; compute the
methods whose slot matches the path, in canonical order; answer `OPTIONS`
with 200, empty body and the `Allow` header; delegate when the method is
allowed; 405 with the same `Allow` header otherwise. -/
def Router.allowedMethods {V : Type} (r : Router V) : Middleware V :=
  fun ctx next =>
    match parseMethod ctx.method with
    | none => { ctx with status := some 501 }
    | some mth =>
      let allowed := canonicalMethods.filter (fun m =>
        (fpParse ((r.parsers.slot m).map some) (routeParse ctx.path) none).isSome)
      if mth = Method.OPTIONS then
        Ctx.set { ctx with status := some 200, body := some "" }
          "Allow" (String.intercalate ", " (allowed.map RMethod.name))
      else if (allowed.map RMethod.toMethod).contains mth then
        next ctx
      else
        Ctx.set { ctx with status := some 405 }
          "Allow" (String.intercalate ", " (allowed.map RMethod.name))

/-- The set of methods allowed at a path, as `allowedMethods` computes it:
the canonical method list filtered to the slots whose parser matches the
parsed path. -/
def allowedFor {V : Type} (r : Router V) (path : String) : List RMethod :=
  canonicalMethods.filter (fun m => ((r.parsers.slot m).run (routeParse path)).isSome)

/-- The `Allow` header value serialized from the allowed set. -/
def allowHeaderValue {V : Type} (r : Router V) (path : String) : String :=
  String.intercalate ", " ((allowedFor r path).map RMethod.name)

/-! ## Concrete fixtures

The matchers, handlers and requests of the repository's test suite, used to
instantiate the theorems below on closed inputs. -/

/-- The test's `lit('users').then(str('id')).then(end)`, matching `/users/:id`. -/
def userMatch : Match Params :=
  (lit "users").andThen ((strCapture "id").andThen endMatch)

/-- The test's `str('userID').then(end)`, matching `/:userID`. -/
def oldUserMatch : Match Params :=
  (strCapture "userID").andThen endMatch

/-- The test's `end`, matching `/`. -/
def rootMatch : Match Params := endMatch

/-- A handler that writes a response body. -/
def demoHandler : Middleware Params :=
  fun c _next => { c with body := some "handled" }

/-- A second, observably different handler. -/
def otherHandler : Middleware Params :=
  fun c _next => { c with body := some "other" }

/-- The test's parameter mapping `({ userID }) => ({ id: userID })`. -/
def userIDToId : Params → Params :=
  fun a => [("id", (a.lookup "userID").getD "")]

/-- A downstream continuation standing for the host framework's 404. -/
def next404 : Ctx Params → Ctx Params :=
  fun c => { c with status := some 404 }

/-- A fresh incoming request context for the given method and path. -/
def mkCtx (method path : String) : Ctx Params :=
  { method := method, path := path, params := none, status := none,
    body := none, headers := [] }

/-- The `allowedMethods` test's router: `get(root, handler)` then
`post(root, handler)`. -/
def routerGP : Router Params :=
  ((Router.new (V := Params)).get rootMatch demoHandler).post rootMatch demoHandler

/-! ## Basic lemmas about the embedding -/

theorem fpParse_map_some {α : Type} (p : Parser α) (r : RouteParts) :
    fpParse (p.map some) r none = (p.run r).map (fun x => x.1) := by
  cases h : p.run r <;> simp [fpParse, Parser.map, h]

theorem isSome_fpParse_map_some {α : Type} (p : Parser α) (r : RouteParts) :
    (fpParse (p.map some) r none).isSome = (p.run r).isSome := by
  rw [fpParse_map_some]
  cases p.run r <;> simp

theorem alt_run_of_none {α : Type} (p q : Parser α) (r : RouteParts)
    (h : p.run r = none) : (p.alt q).run r = q.run r := by
  simp [Parser.alt, h, Option.orElse]

theorem toSlotKey_toMethod (m : RMethod) : m.toMethod.toSlotKey = some m := by
  cases m <;> rfl

theorem slot_setSlot_self {V : Type} (t : PTable V) (m : RMethod)
    (p : Parser (Middleware V)) : (t.setSlot m p).slot m = p := by
  cases m <;> rfl

theorem slot_setSlot_of_ne {V : Type} (t : PTable V) (m m' : RMethod)
    (p : Parser (Middleware V)) (h : m ≠ m') :
    (t.setSlot m p).slot m' = t.slot m' := by
  cases m <;> cases m' <;> first | rfl | exact absurd rfl h

theorem register_slot_self {V : Type} (r : Router V) (m : RMethod)
    (mtch : Match V) (mw : Middleware V) :
    (r.register m mtch mw).parsers.slot m
      = (r.parsers.slot m).alt (mtch.parser.map (injectParams mw)) := by
  simp [Router.register, slot_setSlot_self]

theorem register_slot_of_ne {V : Type} (r : Router V) (m m' : RMethod)
    (mtch : Match V) (mw : Middleware V) (h : m ≠ m') :
    (r.register m mtch mw).parsers.slot m' = r.parsers.slot m' := by
  simp [Router.register, slot_setSlot_of_ne _ _ _ _ h]

theorem register_middlewares {V : Type} (r : Router V) (m : RMethod)
    (mtch : Match V) (mw : Middleware V) :
    (r.register m mtch mw).middlewares = r.middlewares := rfl

theorem routes_dispatch {V : Type} (r : Router V) (ctx : Ctx V)
    (next : Ctx V → Ctx V) (m : RMethod) (mw : Middleware V) (rest : RouteParts)
    (hmeth : parseMethod ctx.method = some m.toMethod)
    (hrun : (r.parsers.slot m).run (routeParse ctx.path) = some (mw, rest)) :
    r.routes ctx next = koaCompose (r.middlewares ++ [mw]) ctx next := by
  simp [Router.routes, hmeth, toSlotKey_toMethod, fpParse_map_some, hrun]

theorem routes_pass_of_unknown {V : Type} (r : Router V) (ctx : Ctx V)
    (next : Ctx V → Ctx V) (hmeth : parseMethod ctx.method = none) :
    r.routes ctx next = next ctx := by
  simp [Router.routes, hmeth]

theorem routes_pass_of_options {V : Type} (r : Router V) (ctx : Ctx V)
    (next : Ctx V → Ctx V) (hmeth : parseMethod ctx.method = some Method.OPTIONS) :
    r.routes ctx next = next ctx := by
  simp [Router.routes, hmeth, Method.toSlotKey]

theorem routes_pass_of_no_match {V : Type} (r : Router V) (ctx : Ctx V)
    (next : Ctx V → Ctx V) (m : RMethod)
    (hmeth : parseMethod ctx.method = some m.toMethod)
    (hrun : (r.parsers.slot m).run (routeParse ctx.path) = none) :
    r.routes ctx next = next ctx := by
  simp [Router.routes, hmeth, toSlotKey_toMethod, fpParse_map_some, hrun]

theorem allowedMethods_unknown {V : Type} (r : Router V) (ctx : Ctx V)
    (next : Ctx V → Ctx V) (hmeth : parseMethod ctx.method = none) :
    r.allowedMethods ctx next = { ctx with status := some 501 } := by
  simp [Router.allowedMethods, hmeth]

theorem allowedMethods_options {V : Type} (r : Router V) (ctx : Ctx V)
    (next : Ctx V → Ctx V) (hmeth : parseMethod ctx.method = some Method.OPTIONS) :
    r.allowedMethods ctx next
      = Ctx.set { ctx with status := some 200, body := some "" } "Allow"
          (allowHeaderValue r ctx.path) := by
  simp [Router.allowedMethods, hmeth, allowHeaderValue, allowedFor,
    isSome_fpParse_map_some]

theorem allowedMethods_delegate {V : Type} (r : Router V) (ctx : Ctx V)
    (next : Ctx V → Ctx V) (mth : Method)
    (hmeth : parseMethod ctx.method = some mth) (hne : mth ≠ Method.OPTIONS)
    (hin : mth ∈ (allowedFor r ctx.path).map RMethod.toMethod) :
    r.allowedMethods ctx next = next ctx := by
  simp [Router.allowedMethods, hmeth, hne, allowedFor, isSome_fpParse_map_some]
    at hin ⊢
  intro h
  obtain ⟨a, ⟨ha, hs⟩, heq⟩ := hin
  exact absurd heq (h a ha hs)

theorem allowedMethods_not_allowed {V : Type} (r : Router V) (ctx : Ctx V)
    (next : Ctx V → Ctx V) (mth : Method)
    (hmeth : parseMethod ctx.method = some mth) (hne : mth ≠ Method.OPTIONS)
    (hnin : mth ∉ (allowedFor r ctx.path).map RMethod.toMethod) :
    r.allowedMethods ctx next
      = Ctx.set { ctx with status := some 405 } "Allow" (allowHeaderValue r ctx.path) := by
  simp [Router.allowedMethods, hmeth, hne, allowedFor, allowHeaderValue,
    isSome_fpParse_map_some] at hnin ⊢
  intro a ha hs heq
  exact (hnin a ha hs heq).elim

theorem redirect_slot {V : Type} (r : Router V) (src dest : Match V) (f : V → V)
    (code : Nat) (m : RMethod)
    (hm : m ∈ [RMethod.DELETE, RMethod.GET, RMethod.PATCH, RMethod.POST, RMethod.PUT]) :
    (r.redirect src dest f code).parsers.slot m
      = (r.parsers.slot m).alt
          (src.parser.map (injectParams (redirectHandler dest f code))) := by
  fin_cases hm <;> rfl

theorem redirect_parsers_head {V : Type} (r : Router V) (src dest : Match V)
    (f : V → V) (code : Nat) :
    (r.redirect src dest f code).parsers.HEAD = r.parsers.HEAD := rfl

theorem redirect_middlewares {V : Type} (r : Router V) (src dest : Match V)
    (f : V → V) (code : Nat) :
    (r.redirect src dest f code).middlewares = r.middlewares := rfl

/-! ## The claims -/

/-- C1: the claim says the constructor accepts a `basePath` option (default
`/`) and that every `redirect` target is the formatted destination path
prefixed with it.  The code has no such option: the constructor takes no
configuration and `redirect` uses the formatted destination path as is.  At
the scenario of the repository's own base-path test (`basePath "/admin/"`,
redirect from `/:userID` to `/users/:id`, request `GET /john`, expected
`Location: /admin/users/john`) the code produces `Location: /users/john`. -/
theorem C1_redirect_ignores_base_path :
    ((((Router.new (V := Params)).redirectD oldUserMatch userMatch userIDToId).routes
         (mkCtx "GET" "/john") next404).getHeader "Location" = some "/users/john")
    ∧ ((((Router.new (V := Params)).redirectD oldUserMatch userMatch userIDToId).routes
         (mkCtx "GET" "/john") next404).status = some 302)
    ∧ (some "/users/john" ≠ (some "/admin/users/john" : Option String)) := by
  refine ⟨rfl, rfl, ?_⟩
  decide

/-- C2: when a registered (method, pattern, handler) triple matches a
request of that method via that pattern (the slot's earlier alternatives
fail on the path), `routes()` runs exactly the chain of all global
middlewares in registration order followed by the parameter-injecting
wrapper of that handler — which sets `ctx.params` to the extracted values
before the handler body — with the original downstream `next` as the final
continuation. -/
theorem C2_dispatch_chain {V : Type} (r : Router V) (m : RMethod)
    (mtch : Match V) (handler : Middleware V) (ctx : Ctx V)
    (next : Ctx V → Ctx V) (p : V) (rest : RouteParts)
    (hmeth : parseMethod ctx.method = some m.toMethod)
    (hprev : (r.parsers.slot m).run (routeParse ctx.path) = none)
    (hmtch : mtch.parser.run (routeParse ctx.path) = some (p, rest)) :
    (r.register m mtch handler).routes ctx next
      = koaCompose (r.middlewares ++
          [fun c n => handler { c with params := some p } n]) ctx next := by
  have hrun : ((r.register m mtch handler).parsers.slot m).run (routeParse ctx.path)
      = some (injectParams handler p, rest) := by
    rw [register_slot_self, alt_run_of_none _ _ _ hprev]
    simp [Parser.map, hmtch]
  have hr := routes_dispatch (r.register m mtch handler) ctx next m _ rest hmeth hrun
  rw [hr, register_middlewares]
  rfl

/-- Witness for C2: a `GET /users/john` request against a fresh router with
the `/users/:id` route dispatches the handler with `params = [(id, john)]`. -/
theorem C2_dispatch_chain_witness :
    parseMethod (mkCtx "GET" "/users/john").method = some RMethod.GET.toMethod
    ∧ ((Router.new (V := Params)).parsers.slot RMethod.GET).run
        (routeParse (mkCtx "GET" "/users/john").path) = none
    ∧ userMatch.parser.run (routeParse (mkCtx "GET" "/users/john").path)
        = some ([("id", "john")], [])
    ∧ ((Router.new (V := Params)).register RMethod.GET userMatch demoHandler).routes
          (mkCtx "GET" "/users/john") next404
        = koaCompose ((Router.new (V := Params)).middlewares ++
            [fun c n => demoHandler { c with params := some [("id", "john")] } n])
            (mkCtx "GET" "/users/john") next404 :=
  ⟨rfl, rfl, rfl,
    C2_dispatch_chain (Router.new (V := Params)) RMethod.GET userMatch demoHandler
      (mkCtx "GET" "/users/john") next404 [("id", "john")] [] rfl rfl rfl⟩

/-- C3: for an `OPTIONS` request, `allowedMethods()` responds — for every
downstream `next`, which it never invokes — with status 200, empty body and
an `Allow` header listing exactly the methods among DELETE, GET, HEAD,
PATCH, POST, PUT whose slot matches the request path, in that canonical
order, joined by `", "`. -/
theorem C3_options_response {V : Type} (r : Router V) (ctx : Ctx V)
    (hmeth : ctx.method = "OPTIONS") :
    ∀ next : Ctx V → Ctx V,
      r.allowedMethods ctx next
        = Ctx.set { ctx with status := some 200, body := some "" } "Allow"
            (String.intercalate ", " ((allowedFor r ctx.path).map RMethod.name)) := by
  intro next
  have h : parseMethod ctx.method = some Method.OPTIONS := by rw [hmeth]; rfl
  exact allowedMethods_options r ctx next h

/-- Witness for C3: the `allowedMethods` test's router (get + post on `/`)
answers `OPTIONS /` with `Allow: GET, HEAD, POST`. -/
theorem C3_options_response_witness :
    ((mkCtx "OPTIONS" "/").method = "OPTIONS")
    ∧ (allowedFor routerGP "/" = [RMethod.GET, RMethod.HEAD, RMethod.POST])
    ∧ (routerGP.allowedMethods (mkCtx "OPTIONS" "/") next404
        = Ctx.set { mkCtx "OPTIONS" "/" with status := some 200, body := some "" }
            "Allow" (String.intercalate ", "
              ((allowedFor routerGP (mkCtx "OPTIONS" "/").path).map RMethod.name)))
    ∧ String.intercalate ", " ((allowedFor routerGP "/").map RMethod.name)
        = "GET, HEAD, POST" :=
  ⟨rfl, by decide,
   C3_options_response routerGP (mkCtx "OPTIONS" "/") rfl next404,
   by decide⟩

/-- C4: in `allowedMethods()`, an unrecognized method token yields status
501 without calling downstream; a recognized non-`OPTIONS` method in the
allowed set for the path delegates to `next`; a recognized non-`OPTIONS`
method outside the allowed set yields status 405 with the same `Allow`
header as the `OPTIONS` case, without calling downstream (the 501 and 405
results do not depend on `next`, which is universally quantified). -/
theorem C4_status_selection {V : Type} (r : Router V) :
    (∀ (ctx : Ctx V) (next : Ctx V → Ctx V), parseMethod ctx.method = none →
        r.allowedMethods ctx next = { ctx with status := some 501 })
    ∧ (∀ (ctx : Ctx V) (next : Ctx V → Ctx V) (mth : Method),
        parseMethod ctx.method = some mth → mth ≠ Method.OPTIONS →
        mth ∈ (allowedFor r ctx.path).map RMethod.toMethod →
        r.allowedMethods ctx next = next ctx)
    ∧ ∀ (ctx : Ctx V) (next : Ctx V → Ctx V) (mth : Method),
        parseMethod ctx.method = some mth → mth ≠ Method.OPTIONS →
        mth ∉ (allowedFor r ctx.path).map RMethod.toMethod →
        r.allowedMethods ctx next
          = Ctx.set { ctx with status := some 405 } "Allow"
              (String.intercalate ", " ((allowedFor r ctx.path).map RMethod.name)) :=
  ⟨fun ctx next h => allowedMethods_unknown r ctx next h,
   fun ctx next mth h1 h2 h3 => allowedMethods_delegate r ctx next mth h1 h2 h3,
   fun ctx next mth h1 h2 h3 => allowedMethods_not_allowed r ctx next mth h1 h2 h3⟩

/-- Witness for C4, mirroring the repository's `allowedMethods` tests:
`TRACE /` gets 501, `GET /` is delegated, `PUT /` gets 405 with the
`Allow` header. -/
theorem C4_status_selection_witness :
    (routerGP.allowedMethods (mkCtx "TRACE" "/") next404
        = { mkCtx "TRACE" "/" with status := some 501 })
    ∧ (routerGP.allowedMethods (mkCtx "GET" "/") next404 = next404 (mkCtx "GET" "/"))
    ∧ (routerGP.allowedMethods (mkCtx "PUT" "/") next404
        = Ctx.set { mkCtx "PUT" "/" with status := some 405 } "Allow"
            (String.intercalate ", "
              ((allowedFor routerGP (mkCtx "PUT" "/").path).map RMethod.name))) :=
  ⟨(C4_status_selection routerGP).1 (mkCtx "TRACE" "/") next404 rfl,
   (C4_status_selection routerGP).2.1 (mkCtx "GET" "/") next404 Method.GET rfl
     (by decide) (by decide),
   (C4_status_selection routerGP).2.2 (mkCtx "PUT" "/") next404 Method.PUT rfl
     (by decide) (by decide)⟩

/-- C5: registration alternates the new pattern after the slot's current
value (second conjunct), so when two patterns registered for the same
method both could match a path, the earlier registration's handler is
selected (first conjunct holds whatever the second pattern does on the
route). -/
theorem C5_first_registration_wins {V : Type} (r : Router V) (m : RMethod)
    (mtch1 mtch2 : Match V) (h1 h2 : Middleware V) (route : RouteParts)
    (a : V) (rest : RouteParts)
    (hprev : (r.parsers.slot m).run route = none)
    (hm1 : mtch1.parser.run route = some (a, rest)) :
    ((((r.register m mtch1 h1).register m mtch2 h2).parsers.slot m).run route
        = some (injectParams h1 a, rest))
    ∧ ∀ (mt : Match V) (mw : Middleware V),
        (r.register m mt mw).parsers.slot m
          = (r.parsers.slot m).alt (mt.parser.map (injectParams mw)) := by
  constructor
  · have hr1 : ((r.register m mtch1 h1).parsers.slot m).run route
        = some (injectParams h1 a, rest) := by
      rw [register_slot_self, alt_run_of_none _ _ _ hprev]
      simp [Parser.map, hm1]
    rw [register_slot_self]
    simp [Parser.alt, hr1, Option.orElse]
  · intro mt mw
    exact register_slot_self r m mt mw

/-- Witness for C5: `/:userID` and `/:name` both match `/john`; the slot
selects the first-registered handler with its extracted parameters. -/
theorem C5_first_registration_wins_witness :
    (((Router.new (V := Params)).parsers.slot RMethod.GET).run (routeParse "/john") = none)
    ∧ (oldUserMatch.parser.run (routeParse "/john") = some ([("userID", "john")], []))
    ∧ (((((Router.new (V := Params)).register RMethod.GET oldUserMatch demoHandler).register
            RMethod.GET ((strCapture "name").andThen endMatch) otherHandler).parsers.slot
            RMethod.GET).run (routeParse "/john")
        = some (injectParams demoHandler [("userID", "john")], []))
    ∧ ∀ (mt : Match Params) (mw : Middleware Params),
        ((Router.new (V := Params)).register RMethod.GET mt mw).parsers.slot RMethod.GET
          = ((Router.new (V := Params)).parsers.slot RMethod.GET).alt
              (mt.parser.map (injectParams mw)) :=
  ⟨rfl, rfl,
    (C5_first_registration_wins (Router.new (V := Params)) RMethod.GET oldUserMatch
      ((strCapture "name").andThen endMatch) demoHandler otherHandler
      (routeParse "/john") [("userID", "john")] [] rfl rfl).1,
    (C5_first_registration_wins (Router.new (V := Params)) RMethod.GET oldUserMatch
      ((strCapture "name").andThen endMatch) demoHandler otherHandler
      (routeParse "/john") [("userID", "john")] [] rfl rfl).2⟩

/-- C6: `get(pattern, handler)` alternates the same wrapped pair onto both
the GET and the HEAD slot, so whenever the two slots agree beforehand (as
they do on a fresh router), a HEAD request matches exactly as the GET
request on the same path — same handler, same extracted parameters. -/
theorem C6_get_also_head {V : Type} (r : Router V) (mtch : Match V)
    (handler : Middleware V) :
    ((r.get mtch handler).parsers.GET
        = (r.parsers.GET).alt (mtch.parser.map (injectParams handler))
      ∧ (r.get mtch handler).parsers.HEAD
        = (r.parsers.HEAD).alt (mtch.parser.map (injectParams handler)))
    ∧ (r.parsers.GET = r.parsers.HEAD →
        ∀ path : String,
          ((r.get mtch handler).parsers.HEAD).run (routeParse path)
            = ((r.get mtch handler).parsers.GET).run (routeParse path)) := by
  refine ⟨⟨rfl, rfl⟩, ?_⟩
  intro h path
  have e1 : (r.get mtch handler).parsers.HEAD
      = (r.parsers.HEAD).alt (mtch.parser.map (injectParams handler)) := rfl
  have e2 : (r.get mtch handler).parsers.GET
      = (r.parsers.GET).alt (mtch.parser.map (injectParams handler)) := rfl
  rw [e1, e2, h]

/-- Witness for C6 on a fresh router with the `/users/:id` route. -/
theorem C6_get_also_head_witness :
    ((Router.new (V := Params)).parsers.GET = (Router.new (V := Params)).parsers.HEAD)
    ∧ ∀ path : String,
        (((Router.new (V := Params)).get userMatch demoHandler).parsers.HEAD).run
            (routeParse path)
          = (((Router.new (V := Params)).get userMatch demoHandler).parsers.GET).run
              (routeParse path) :=
  ⟨rfl,
    (C6_get_also_head (Router.new (V := Params)) userMatch demoHandler).2 rfl⟩

/-- C7: `routes()` passes control to the original downstream `next` with
the context untouched — running no global middleware and no handler — when
the method token is unrecognized, when it is `OPTIONS`, or when the
recognized method's slot does not match the path. -/
theorem C7_unmatched_passthrough {V : Type} (r : Router V) (ctx : Ctx V)
    (next : Ctx V → Ctx V) :
    (parseMethod ctx.method = none → r.routes ctx next = next ctx)
    ∧ (parseMethod ctx.method = some Method.OPTIONS → r.routes ctx next = next ctx)
    ∧ ∀ m : RMethod, parseMethod ctx.method = some m.toMethod →
        (r.parsers.slot m).run (routeParse ctx.path) = none →
        r.routes ctx next = next ctx :=
  ⟨routes_pass_of_unknown r ctx next,
   routes_pass_of_options r ctx next,
   fun m hm hr => routes_pass_of_no_match r ctx next m hm hr⟩

/-- Witness for C7: an unrecognized `TRACE`, an `OPTIONS`, and a `GET` with
only a POST route registered all pass through unchanged. -/
theorem C7_unmatched_passthrough_witness :
    ((Router.new (V := Params)).routes (mkCtx "TRACE" "/") next404
        = next404 (mkCtx "TRACE" "/"))
    ∧ ((Router.new (V := Params)).routes (mkCtx "OPTIONS" "/") next404
        = next404 (mkCtx "OPTIONS" "/"))
    ∧ (((Router.new (V := Params)).register RMethod.POST rootMatch demoHandler).routes
          (mkCtx "GET" "/") next404
        = next404 (mkCtx "GET" "/")) :=
  ⟨(C7_unmatched_passthrough (Router.new (V := Params)) (mkCtx "TRACE" "/") next404).1 rfl,
   (C7_unmatched_passthrough (Router.new (V := Params)) (mkCtx "OPTIONS" "/") next404).2.1 rfl,
   (C7_unmatched_passthrough ((Router.new (V := Params)).register RMethod.POST rootMatch
       demoHandler) (mkCtx "GET" "/") next404).2.2 RMethod.GET rfl rfl⟩

/-- C8: `redirect(src, dest, f, code)` defaults `code` to 302 (first
conjunct), registers the redirecting handler under each of the five verbs
DELETE, GET, PATCH, POST, PUT (second conjunct, `m` ranging over the five),
and a request of any of those methods matching `src` with parameters `p`
gets a response whose `Location` is `format(dest, f(p))` and whose final
status is `code`. -/
theorem C8_redirect_all_five {V : Type} (r : Router V) (src dest : Match V)
    (f : V → V) (code : Nat) (m : RMethod) (ctx : Ctx V) (next : Ctx V → Ctx V)
    (p : V) (rest : RouteParts)
    (hm : m ∈ [RMethod.DELETE, RMethod.GET, RMethod.PATCH, RMethod.POST, RMethod.PUT])
    (hmw : r.middlewares = [])
    (hmeth : parseMethod ctx.method = some m.toMethod)
    (hprev : (r.parsers.slot m).run (routeParse ctx.path) = none)
    (hsrc : src.parser.run (routeParse ctx.path) = some (p, rest)) :
    (r.redirectD src dest f = r.redirect src dest f 302)
    ∧ ((r.redirect src dest f code).parsers.slot m
        = (r.parsers.slot m).alt
            (src.parser.map (injectParams (redirectHandler dest f code))))
    ∧ (((r.redirect src dest f code).routes ctx next).getHeader "Location"
        = some (fpFormat dest.formatter (f p)))
    ∧ ((r.redirect src dest f code).routes ctx next).status = some code := by
  refine ⟨rfl, redirect_slot r src dest f code m hm, ?_⟩
  have hrun : ((r.redirect src dest f code).parsers.slot m).run (routeParse ctx.path)
      = some (injectParams (redirectHandler dest f code) p, rest) := by
    rw [redirect_slot r src dest f code m hm, alt_run_of_none _ _ _ hprev]
    simp [Parser.map, hsrc]
  have hroutes := routes_dispatch _ ctx next m _ rest hmeth hrun
  rw [redirect_middlewares, hmw] at hroutes
  rw [hroutes]
  constructor <;> rfl

/-- Witness for C8: `POST /john` on a fresh router with the test's
redirect from `/:userID` to `/users/:id` gets `Location: /users/john` and
status 302. -/
theorem C8_redirect_all_five_witness :
    ((((Router.new (V := Params)).redirect oldUserMatch userMatch userIDToId 302).routes
          (mkCtx "POST" "/john") next404).getHeader "Location"
        = some (fpFormat userMatch.formatter (userIDToId [("userID", "john")])))
    ∧ ((((Router.new (V := Params)).redirect oldUserMatch userMatch userIDToId 302).routes
          (mkCtx "POST" "/john") next404).status = some 302)
    ∧ fpFormat userMatch.formatter (userIDToId [("userID", "john")]) = "/users/john" :=
  ⟨(C8_redirect_all_five (Router.new (V := Params)) oldUserMatch userMatch userIDToId
      302 RMethod.POST (mkCtx "POST" "/john") next404 [("userID", "john")] []
      (by decide) rfl rfl rfl rfl).2.2.1,
   (C8_redirect_all_five (Router.new (V := Params)) oldUserMatch userMatch userIDToId
      302 RMethod.POST (mkCtx "POST" "/john") next404 [("userID", "john")] []
      (by decide) rfl rfl rfl rfl).2.2.2,
   by decide⟩

/-- C9: a freshly constructed router has every one of its six method slots
equal to the matcher that fails on every path, so no request matches under
any method and `routes()` always passes through. -/
theorem C9_fresh_router_empty (V : Type) :
    (∀ (m : RMethod) (path : String),
        ((Router.new (V := V)).parsers.slot m).run (routeParse path) = none)
    ∧ ∀ (ctx : Ctx V) (next : Ctx V → Ctx V),
        (Router.new (V := V)).routes ctx next = next ctx := by
  constructor
  · intro m path
    cases m <;> rfl
  · intro ctx next
    cases h : parseMethod ctx.method with
    | none => exact routes_pass_of_unknown _ _ _ h
    | some mth =>
      cases mth with
      | OPTIONS => exact routes_pass_of_options _ _ _ h
      | DELETE => exact routes_pass_of_no_match _ _ _ RMethod.DELETE h rfl
      | GET => exact routes_pass_of_no_match _ _ _ RMethod.GET h rfl
      | HEAD => exact routes_pass_of_no_match _ _ _ RMethod.HEAD h rfl
      | PATCH => exact routes_pass_of_no_match _ _ _ RMethod.PATCH h rfl
      | POST => exact routes_pass_of_no_match _ _ _ RMethod.POST h rfl
      | PUT => exact routes_pass_of_no_match _ _ _ RMethod.PUT h rfl

/-- C10: `redirect` leaves the HEAD slot untouched, so a HEAD request whose
path matches only a redirect source pattern passes through to the
downstream handler — whereas `get`, which also registers HEAD, dispatches
the same request to its handler. -/
theorem C10_redirect_skips_head {V : Type} (r : Router V) (src dest : Match V)
    (f : V → V) (code : Nat) :
    ((r.redirect src dest f code).parsers.HEAD = r.parsers.HEAD)
    ∧ (∀ (ctx : Ctx V) (next : Ctx V → Ctx V) (p : V) (rest : RouteParts),
        ctx.method = "HEAD" →
        (r.parsers.HEAD).run (routeParse ctx.path) = none →
        src.parser.run (routeParse ctx.path) = some (p, rest) →
        (r.redirect src dest f code).routes ctx next = next ctx)
    ∧ ∀ (ctx : Ctx V) (next : Ctx V → Ctx V) (handler : Middleware V)
        (p : V) (rest : RouteParts),
        ctx.method = "HEAD" →
        (r.parsers.HEAD).run (routeParse ctx.path) = none →
        src.parser.run (routeParse ctx.path) = some (p, rest) →
        (r.get src handler).routes ctx next
          = koaCompose (r.middlewares ++ [injectParams handler p]) ctx next := by
  refine ⟨rfl, ?_, ?_⟩
  · intro ctx next p rest hhead hnone _hsrc
    have hmeth : parseMethod ctx.method = some RMethod.HEAD.toMethod := by
      rw [hhead]; rfl
    exact routes_pass_of_no_match _ _ _ RMethod.HEAD hmeth hnone
  · intro ctx next handler p rest hhead hnone hsrc
    have hmeth : parseMethod ctx.method = some RMethod.HEAD.toMethod := by
      rw [hhead]; rfl
    have hslot : (r.get src handler).parsers.slot RMethod.HEAD
        = (r.parsers.HEAD).alt (src.parser.map (injectParams handler)) := rfl
    have hrun : ((r.get src handler).parsers.slot RMethod.HEAD).run (routeParse ctx.path)
        = some (injectParams handler p, rest) := by
      rw [hslot, alt_run_of_none _ _ _ hnone]
      simp [Parser.map, hsrc]
    exact routes_dispatch _ ctx next RMethod.HEAD _ rest hmeth hrun

/-- Witness for C10: `HEAD /john` passes through a fresh router holding
only the test's redirect, but dispatches on a router where the same source
pattern was registered via `get`. -/
theorem C10_redirect_skips_head_witness :
    ((((Router.new (V := Params)).redirectD oldUserMatch userMatch
          userIDToId).parsers.HEAD) = (Router.new (V := Params)).parsers.HEAD)
    ∧ (((Router.new (V := Params)).redirectD oldUserMatch userMatch userIDToId).routes
          (mkCtx "HEAD" "/john") next404
        = next404 (mkCtx "HEAD" "/john"))
    ∧ (((Router.new (V := Params)).get oldUserMatch demoHandler).routes
          (mkCtx "HEAD" "/john") next404
        = koaCompose ((Router.new (V := Params)).middlewares
            ++ [injectParams demoHandler [("userID", "john")]])
            (mkCtx "HEAD" "/john") next404) :=
  ⟨(C10_redirect_skips_head (Router.new (V := Params)) oldUserMatch userMatch
      userIDToId 302).1,
   (C10_redirect_skips_head (Router.new (V := Params)) oldUserMatch userMatch
      userIDToId 302).2.1 (mkCtx "HEAD" "/john") next404 [("userID", "john")] []
      rfl rfl rfl,
   (C10_redirect_skips_head (Router.new (V := Params)) oldUserMatch userMatch
      userIDToId 302).2.2 (mkCtx "HEAD" "/john") next404 demoHandler
      [("userID", "john")] [] rfl rfl rfl⟩

end KoaFptsRouter
